import Mathlib

/-!
# Verification of the sqlx-example transactional core

A shallow embedding of the repository's data-access layer:

* `DB` models the MySQL database state (the `users` and `profiles`
  tables, plus the auto-increment counters).
* Row-level primitives (`insertUserRow`, `updateUserEmailRow`, …) give
  the semantics of each SQL statement of `models.rs`, including the
  UNIQUE constraints of the schema and the `ON DELETE CASCADE` foreign
  key of `profiles`.
* Each service function of `services.rs` is embedded as a pure function
  from the pre-state to the post-state, an event trace, and a result.
  A transaction is modelled explicitly: writes are applied to a working
  copy of the state; `commit` publishes the working copy, `rollback`
  discards it and the pre-state is returned unchanged.
* Environmental failures (connectivity loss) are modelled by a Boolean
  fault flag per executed write statement (`execStmt`); a write can
  also fail on its own through a constraint violation.
* Random username/email generation (`utils.rs`) is an external
  collaborator: the generated strings are taken as parameters.
* Timestamps (`CURRENT_TIMESTAMP`) are modelled by a logical clock
  value `time : Nat` passed to every operation.

The trace records every statement sent to the store as the pair of its
SQL text and its bound parameters, together with whether it succeeded,
plus the `commit` / `rollback` actions; select statements read the
state and are not subject to faults.
-/

/-- A value bound as a statement parameter. -/
inductive Val
  | str (s : String)
  | num (n : Nat)
  | optStr (s : Option String)
deriving Repr, DecidableEq

/-- An observable event of an operation: a statement sent to the store
(its SQL text, its bound parameters, and whether it succeeded), or a
transaction commit / rollback. -/
inductive Event
  | stmt (sql : String) (params : List Val) (ok : Bool)
  | commit
  | rollback
deriving Repr, DecidableEq

/-- Errors surfaced by the embedded operations: store-level errors
(uniqueness/foreign-key violation, connectivity loss) and the
application-level `anyhow!` errors of `services.rs`. -/
inductive AppError
  | constraintViolation
  | connectivity
  | userNotFound (id : Nat)
  | noUserToDelete
  | noUserForRollbackTest
  | noUserForMultiRollbackTest
deriving Repr, DecidableEq

/-- A row of the `users` table (struct `User` in `models.rs`). -/
structure UserRow where
  id : Nat
  username : String
  email : String
  created_at : Nat
  updated_at : Nat
deriving Repr, DecidableEq

/-- A row of the `profiles` table (struct `Profile` in `models.rs`). -/
structure ProfileRow where
  id : Nat
  user_id : Nat
  full_name : String
  bio : Option String
  avatar_url : Option String
  created_at : Nat
  updated_at : Nat
deriving Repr, DecidableEq

/-- The database state: both tables and their auto-increment counters. -/
structure DB where
  users : List UserRow
  profiles : List ProfileRow
  nextUserId : Nat
  nextProfileId : Nat
deriving Repr, DecidableEq

/-! ## SQL statement texts (`models.rs`, plus the inline query of
`find_oldest_user` in `database.rs`) -/

def INSERT_USER_SQL : String :=
  "\nINSERT INTO users (username, email) VALUES (?, ?)\n"

def SELECT_ALL_USERS_SQL : String :=
  "\nSELECT id, username, email, created_at, updated_at FROM users\n"

def SELECT_USER_BY_ID_SQL : String :=
  "\nSELECT id, username, email, created_at, updated_at FROM users WHERE id = ?\n"

def UPDATE_USER_SQL : String :=
  "\nUPDATE users SET email = ? WHERE id = ?\n"

def DELETE_USER_SQL : String :=
  "\nDELETE FROM users WHERE id = ?\n"

def INSERT_PROFILE_SQL : String :=
  "\nINSERT INTO profiles (user_id, full_name, bio, avatar_url) VALUES (?, ?, ?, ?)\n"

def SELECT_ALL_PROFILES_SQL : String :=
  "\nSELECT id, user_id, full_name, bio, avatar_url, created_at, updated_at FROM profiles\n"

def SELECT_PROFILE_BY_USER_ID_SQL : String :=
  "\nSELECT id, user_id, full_name, bio, avatar_url, created_at, updated_at FROM profiles WHERE user_id = ?\n"

def UPDATE_PROFILE_SQL : String :=
  "\nUPDATE profiles SET full_name = ?, bio = ?, avatar_url = ? WHERE user_id = ?\n"

def DELETE_PROFILE_SQL : String :=
  "\nDELETE FROM profiles WHERE user_id = ?\n"

def FIND_OLDEST_USER_SQL : String :=
  "SELECT * FROM users ORDER BY created_at ASC LIMIT 1"

/-! ## Row-level statement semantics -/

/-- `INSERT INTO users (username, email) VALUES (?, ?)`: fails with a
constraint violation when the UNIQUE `username` or `email` column would
be duplicated; otherwise appends the row with the next auto-increment
id (returned as `last_insert_id`). -/
def insertUserRow (db : DB) (username email : String) (time : Nat) :
    Except AppError (DB × Nat) :=
  if db.users.any (fun u => u.username == username || u.email == email) then
    .error .constraintViolation
  else
    let uid := db.nextUserId
    .ok ({ db with
            users := db.users ++
              [{ id := uid, username := username, email := email,
                 created_at := time, updated_at := time }],
            nextUserId := uid + 1 }, uid)

/-- `INSERT INTO profiles (user_id, full_name, bio, avatar_url) VALUES
(?, ?, ?, ?)`: fails when the UNIQUE `user_id` would be duplicated or
the foreign key to `users` is not satisfied. -/
def insertProfileRow (db : DB) (user_id : Nat) (full_name : String)
    (bio avatar_url : Option String) (time : Nat) :
    Except AppError (DB × Nat) :=
  if db.profiles.any (fun p => p.user_id == user_id) then
    .error .constraintViolation
  else if !(db.users.any (fun u => u.id == user_id)) then
    .error .constraintViolation
  else
    let pid := db.nextProfileId
    .ok ({ db with
            profiles := db.profiles ++
              [{ id := pid, user_id := user_id, full_name := full_name,
                 bio := bio, avatar_url := avatar_url,
                 created_at := time, updated_at := time }],
            nextProfileId := pid + 1 }, pid)

/-- `UPDATE users SET email = ? WHERE id = ?`: uniqueness is checked
only on rows the statement actually modifies, so it fails when some row
matches the id and the new email would duplicate another row's UNIQUE
email; a zero-row UPDATE (no matching id) always succeeds with zero
rows affected. Otherwise it rewrites the `email` column (and the
`ON UPDATE CURRENT_TIMESTAMP` column `updated_at`) of every matching
row. -/
def updateUserEmailRow (db : DB) (newEmail : String) (id time : Nat) :
    Except AppError DB :=
  if db.users.any (fun u => u.id == id) &&
      db.users.any (fun u => u.id != id && u.email == newEmail) then
    .error .constraintViolation
  else
    .ok { db with
            users := db.users.map (fun u =>
              if u.id == id then
                { u with email := newEmail, updated_at := time }
              else u) }

/-- `UPDATE profiles SET full_name = ?, bio = ?, avatar_url = ? WHERE
user_id = ?`: no constraint can be violated; rewrites the three columns
(and `updated_at`) of every matching row. -/
def updateProfileRow (db : DB) (full_name : String)
    (bio avatar_url : Option String) (user_id time : Nat) : DB :=
  { db with
      profiles := db.profiles.map (fun p =>
        if p.user_id == user_id then
          { p with full_name := full_name, bio := bio,
                   avatar_url := avatar_url, updated_at := time }
        else p) }

/-- `DELETE FROM users WHERE id = ?`: removes the matching user rows;
the `ON DELETE CASCADE` foreign key also removes the dependent
`profiles` rows. -/
def deleteUserRow (db : DB) (id : Nat) : DB :=
  { db with
      users := db.users.filter (fun u => u.id != id),
      profiles := db.profiles.filter (fun p => p.user_id != id) }

/-- `DELETE FROM profiles WHERE user_id = ?`. -/
def deleteProfileRow (db : DB) (user_id : Nat) : DB :=
  { db with profiles := db.profiles.filter (fun p => p.user_id != user_id) }

/-! ## Select semantics (`database.rs`) -/

/-- `select_user_by_id`: `fetch_optional` of `SELECT ... WHERE id = ?`;
a missing row is `none`, not an error. -/
def select_user_by_id (db : DB) (id : Nat) : Option UserRow :=
  db.users.find? (fun u => u.id == id)

/-- `select_all_users`: `fetch_all` of `SELECT ... FROM users`. -/
def select_all_users (db : DB) : List UserRow :=
  db.users

/-- `select_all_profiles`: `fetch_all` of `SELECT ... FROM profiles`. -/
def select_all_profiles (db : DB) : List ProfileRow :=
  db.profiles

/-- `select_profile_by_user_id`: `fetch_optional` of
`SELECT ... WHERE user_id = ?`. -/
def select_profile_by_user_id (db : DB) (user_id : Nat) : Option ProfileRow :=
  db.profiles.find? (fun p => p.user_id == user_id)

/-- The row of least `created_at` among `u :: rest` (first one wins on
ties), giving the semantics of `ORDER BY created_at ASC LIMIT 1`. -/
def oldestOf (u : UserRow) : List UserRow → UserRow
  | [] => u
  | v :: rest => if v.created_at < u.created_at then oldestOf v rest else oldestOf u rest

/-- `find_oldest_user`: `fetch_optional` of
`SELECT * FROM users ORDER BY created_at ASC LIMIT 1`; `none` on an
empty table, otherwise a row of minimal `created_at` (the SQL leaves the
choice among ties unspecified; the embedding takes the first). -/
def find_oldest_user (db : DB) : Option UserRow :=
  match db.users with
  | [] => none
  | u :: rest => some (oldestOf u rest)

/-! ## Transactional operations (`services.rs`)

Each operation returns `(post-state, event trace, result)`.  The fault
flags (one per write statement, in program order) inject connectivity
failures; `execStmt` applies a flag to a statement's own outcome. -/

/-- A write statement's outcome under a possible connectivity fault. -/
def execStmt (fault : Bool) (res : Except AppError β) : Except AppError β :=
  if fault then .error .connectivity else res

/-- `UserService::insert_user`: one transactional `INSERT INTO users`;
commit on success, rollback and propagate on failure. The random
username/email are parameters. -/
def insert_user (db : DB) (username email : String) (time : Nat)
    (f1 : Bool) : DB × List Event × Except AppError Nat :=
  match execStmt f1 (insertUserRow db username email time) with
  | .ok (tx1, user_id) =>
      (tx1, [.stmt INSERT_USER_SQL [.str username, .str email] true, .commit],
       .ok user_id)
  | .error e =>
      (db, [.stmt INSERT_USER_SQL [.str username, .str email] false, .rollback],
       .error e)

/-- `UserService::update_user_email`: select the user by id on the pool;
if absent, return the `anyhow!` error; otherwise transactionally
`UPDATE` the email to `"updated_" ++` the old email, commit and re-query
for verification, or rollback and propagate on failure. -/
def update_user_email (db : DB) (user_id time : Nat) (f1 : Bool) :
    DB × List Event × Except AppError Unit :=
  match select_user_by_id db user_id with
  | some user =>
      let new_email := "updated_" ++ user.email
      match execStmt f1 (updateUserEmailRow db new_email user_id time) with
      | .ok tx1 =>
          (tx1, [.stmt SELECT_USER_BY_ID_SQL [.num user_id] true,
                 .stmt UPDATE_USER_SQL [.str new_email, .num user_id] true,
                 .commit,
                 .stmt SELECT_USER_BY_ID_SQL [.num user_id] true],
           .ok ())
      | .error e =>
          (db, [.stmt SELECT_USER_BY_ID_SQL [.num user_id] true,
                .stmt UPDATE_USER_SQL [.str new_email, .num user_id] false,
                .rollback],
           .error e)
  | none =>
      (db, [.stmt SELECT_USER_BY_ID_SQL [.num user_id] true],
       .error (.userNotFound user_id))

/-- `UserService::delete_oldest_user`: find the oldest user; if absent,
return the `anyhow!` error; otherwise transactionally `DELETE` it. -/
def delete_oldest_user (db : DB) (f1 : Bool) :
    DB × List Event × Except AppError Unit :=
  match find_oldest_user db with
  | some oldest =>
      match execStmt f1 (Except.ok (deleteUserRow db oldest.id)) with
      | .ok tx1 =>
          (tx1, [.stmt FIND_OLDEST_USER_SQL [] true,
                 .stmt DELETE_USER_SQL [.num oldest.id] true,
                 .commit],
           .ok ())
      | .error e =>
          (db, [.stmt FIND_OLDEST_USER_SQL [] true,
                .stmt DELETE_USER_SQL [.num oldest.id] false,
                .rollback],
           .error e)
  | none =>
      (db, [.stmt FIND_OLDEST_USER_SQL [] true],
       .error .noUserToDelete)

/-- `UserProfileService::create_user_with_profile`: one transaction that
inserts the user, then inserts its profile bound to the fresh
`last_insert_id`; commit after both, rollback and propagate on either
failure. -/
def create_user_with_profile (db : DB) (username email : String)
    (time : Nat) (f1 f2 : Bool) :
    DB × List Event × Except AppError (Nat × Nat) :=
  let full_name := username ++ " Smith"
  let bio : Option String := some "这是一个示例个人简介"
  let avatar_url : Option String := some "https://example.com/avatar.png"
  match execStmt f1 (insertUserRow db username email time) with
  | .ok (tx1, user_id) =>
      match execStmt f2 (insertProfileRow tx1 user_id full_name bio avatar_url time) with
      | .ok (tx2, profile_id) =>
          (tx2, [.stmt INSERT_USER_SQL [.str username, .str email] true,
                 .stmt INSERT_PROFILE_SQL
                   [.num user_id, .str full_name, .optStr bio, .optStr avatar_url] true,
                 .commit],
           .ok (user_id, profile_id))
      | .error e =>
          (db, [.stmt INSERT_USER_SQL [.str username, .str email] true,
                .stmt INSERT_PROFILE_SQL
                  [.num user_id, .str full_name, .optStr bio, .optStr avatar_url] false,
                .rollback],
           .error e)
  | .error e =>
      (db, [.stmt INSERT_USER_SQL [.str username, .str email] false, .rollback],
       .error e)

/-- `UserProfileService::update_user_and_profile`: one transaction that
updates the user's email, then the profile's fields; commit after both,
rollback and propagate on either failure. The two random name strings
are parameters. -/
def update_user_and_profile (db : DB) (user_id : Nat) (rand1 rand2 : String)
    (time : Nat) (f1 f2 : Bool) : DB × List Event × Except AppError Unit :=
  let new_email := "updated_" ++ rand1 ++ "@example.com"
  match execStmt f1 (updateUserEmailRow db new_email user_id time) with
  | .ok tx1 =>
      let new_full_name := "Updated " ++ rand2
      let new_bio : Option String := some "更新后的个人简介"
      let new_avatar_url : Option String := some "https://example.com/updated-avatar.png"
      match execStmt f2 (Except.ok (updateProfileRow tx1 new_full_name new_bio new_avatar_url user_id time)) with
      | .ok tx2 =>
          (tx2, [.stmt UPDATE_USER_SQL [.str new_email, .num user_id] true,
                 .stmt UPDATE_PROFILE_SQL
                   [.str new_full_name, .optStr new_bio, .optStr new_avatar_url, .num user_id] true,
                 .commit],
           .ok ())
      | .error e =>
          (db, [.stmt UPDATE_USER_SQL [.str new_email, .num user_id] true,
                .stmt UPDATE_PROFILE_SQL
                  [.str new_full_name, .optStr new_bio, .optStr new_avatar_url, .num user_id] false,
                .rollback],
           .error e)
  | .error e =>
      (db, [.stmt UPDATE_USER_SQL [.str new_email, .num user_id] false, .rollback],
       .error e)

/-- `UserProfileService::delete_user_and_profile`: one transaction that
deletes the profile row (by `user_id`), then the user row; commit after
both, rollback and propagate on either failure. -/
def delete_user_and_profile (db : DB) (user_id : Nat) (f1 f2 : Bool) :
    DB × List Event × Except AppError Unit :=
  match execStmt f1 (Except.ok (deleteProfileRow db user_id)) with
  | .ok tx1 =>
      match execStmt f2 (Except.ok (deleteUserRow tx1 user_id)) with
      | .ok tx2 =>
          (tx2, [.stmt DELETE_PROFILE_SQL [.num user_id] true,
                 .stmt DELETE_USER_SQL [.num user_id] true,
                 .commit],
           .ok ())
      | .error e =>
          (db, [.stmt DELETE_PROFILE_SQL [.num user_id] true,
                .stmt DELETE_USER_SQL [.num user_id] false,
                .rollback],
           .error e)
  | .error e =>
      (db, [.stmt DELETE_PROFILE_SQL [.num user_id] false, .rollback],
       .error e)

/-- `test_transaction_rollback` (`services.rs`): take the first existing
user's email, deliberately insert a new user with that duplicate email;
on the expected failure, rollback, re-query the users for verification,
and return success (the error is logged, not propagated); on the
unexpected success, commit with a warning. -/
def test_transaction_rollback (db : DB) (newUsername : String)
    (time : Nat) (f1 : Bool) : DB × List Event × Except AppError Unit :=
  match (select_all_users db).head? with
  | some existing_user =>
      let duplicate_email := existing_user.email
      match execStmt f1 (insertUserRow db newUsername duplicate_email time) with
      | .ok (tx1, _) =>
          (tx1, [.stmt SELECT_ALL_USERS_SQL [] true,
                 .stmt INSERT_USER_SQL [.str newUsername, .str duplicate_email] true,
                 .commit],
           .ok ())
      | .error _ =>
          (db, [.stmt SELECT_ALL_USERS_SQL [] true,
                .stmt INSERT_USER_SQL [.str newUsername, .str duplicate_email] false,
                .rollback,
                .stmt SELECT_ALL_USERS_SQL [] true],
           .ok ())
  | none =>
      (db, [.stmt SELECT_ALL_USERS_SQL [] true],
       .error .noUserForRollbackTest)

/-- `UserProfileService::test_multi_table_transaction_rollback`
(`services.rs`): take the first existing user's username, deliberately
insert a new user with that duplicate username, then (only if that
unexpectedly succeeds) a profile; on the expected failure, rollback,
re-query users and profiles for verification, and return success (the
error is logged, not propagated). -/
def test_multi_table_transaction_rollback (db : DB) (newEmail : String)
    (time : Nat) (f1 f2 : Bool) : DB × List Event × Except AppError Unit :=
  match (select_all_users db).head? with
  | some existing_user =>
      let duplicate_username := existing_user.username
      match execStmt f1 (insertUserRow db duplicate_username newEmail time) with
      | .ok (tx1, user_id) =>
          let full_name := "Test User"
          let bio : Option String := some "Test bio"
          let avatar_url : Option String := some "https://example.com/test.png"
          match execStmt f2 (insertProfileRow tx1 user_id full_name bio avatar_url time) with
          | .ok (tx2, _) =>
              (tx2, [.stmt SELECT_ALL_USERS_SQL [] true,
                     .stmt INSERT_USER_SQL [.str duplicate_username, .str newEmail] true,
                     .stmt INSERT_PROFILE_SQL
                       [.num user_id, .str full_name, .optStr bio, .optStr avatar_url] true,
                     .commit],
               .ok ())
          | .error _ =>
              (db, [.stmt SELECT_ALL_USERS_SQL [] true,
                    .stmt INSERT_USER_SQL [.str duplicate_username, .str newEmail] true,
                    .stmt INSERT_PROFILE_SQL
                      [.num user_id, .str full_name, .optStr bio, .optStr avatar_url] false,
                    .rollback],
               .ok ())
      | .error _ =>
          (db, [.stmt SELECT_ALL_USERS_SQL [] true,
                .stmt INSERT_USER_SQL [.str duplicate_username, .str newEmail] false,
                .rollback,
                .stmt SELECT_ALL_USERS_SQL [] true,
                .stmt SELECT_ALL_PROFILES_SQL [] true],
           .ok ())
  | none =>
      (db, [.stmt SELECT_ALL_USERS_SQL [] true],
       .error .noUserForMultiRollbackTest)

/-! ## Connection provider (`database.rs::create_pool`) -/

/-- The result of a successful `create_pool`: the URL the pool was
opened with and its `max_connections` capacity. -/
structure MySqlPool where
  url : String
  max_connections : Nat
deriving Repr, DecidableEq

/-- The fatal connection error of `create_pool`. -/
inductive ConnError
  | connectionFailed
deriving Repr, DecidableEq

/-- `create_pool`: try the configured URL with `max_connections(5)`;
on failure, retry exactly once with `"?ssl-mode=disabled"` appended; if
both attempts fail, return the error. The environment is abstracted as
the predicate `connectOk` saying which URLs a connection attempt
succeeds on; the returned list records the attempted URLs in order. -/
def create_pool (connectOk : String → Bool) (database_url : String) :
    List String × Except ConnError MySqlPool :=
  if connectOk database_url then
    ([database_url], .ok { url := database_url, max_connections := 5 })
  else
    let database_url_no_ssl := database_url ++ "?ssl-mode=disabled"
    if connectOk database_url_no_ssl then
      ([database_url, database_url_no_ssl],
       .ok { url := database_url_no_ssl, max_connections := 5 })
    else
      ([database_url, database_url_no_ssl], .error .connectionFailed)

/-! ## Trace observations -/

/-- The SQL texts of the statements a trace sent to the store. -/
def sqlTexts (tr : List Event) : List String :=
  tr.filterMap (fun e => match e with
    | .stmt sql _ _ => some sql
    | _ => none)

/-- Whether an event is a statement execution. -/
def isStmt : Event → Bool
  | .stmt _ _ _ => true
  | _ => false

/-- Whether an event is a failed statement execution. -/
def isFailedStmt : Event → Bool
  | .stmt _ _ ok => !ok
  | _ => false

/-- The SQL texts of the write statements (INSERT/UPDATE/DELETE). -/
def writeSqls : List String :=
  [INSERT_USER_SQL, INSERT_PROFILE_SQL, UPDATE_USER_SQL,
   UPDATE_PROFILE_SQL, DELETE_USER_SQL, DELETE_PROFILE_SQL]

/-- Whether an event is a write statement execution. -/
def isWriteStmt : Event → Bool
  | .stmt sql _ _ => writeSqls.contains sql
  | _ => false

/-- Every failed statement is immediately followed by a rollback. -/
def rollbackFollowsFailure : List Event → Bool
  | [] => true
  | .stmt _ _ false :: rest =>
      (match rest with
       | .rollback :: _ => true
       | _ => false) && rollbackFollowsFailure rest
  | _ :: rest => rollbackFollowsFailure rest

/-- No write statement executes after a failed statement. -/
def noWriteAfterFailure : List Event → Bool
  | [] => true
  | .stmt _ _ false :: rest => rest.all (fun e => !(isWriteStmt e))
  | _ :: rest => noWriteAfterFailure rest

/-! ## Helper lemmas -/

theorem execStmt_false (r : Except AppError β) : execStmt false r = r := rfl

theorem execStmt_true (r : Except AppError β) :
    execStmt true r = Except.error AppError.connectivity := rfl

/-- A result flag: whether an operation ended in an error. -/
def isErr : Except AppError α → Bool
  | .error _ => true
  | .ok _ => false

/-- Inserting a user whose username duplicates the first existing row's
username violates the UNIQUE constraint. -/
theorem insertUserRow_dup_username (db : DB) (ex : UserRow)
    (rest : List UserRow) (h : db.users = ex :: rest) (em : String) (t : Nat) :
    insertUserRow db ex.username em t = .error .constraintViolation := by
  simp [insertUserRow, h]

/-- Inserting a user whose email duplicates the first existing row's
email violates the UNIQUE constraint. -/
theorem insertUserRow_dup_email (db : DB) (ex : UserRow)
    (rest : List UserRow) (h : db.users = ex :: rest) (un : String) (t : Nat) :
    insertUserRow db un ex.email t = .error .constraintViolation := by
  simp [insertUserRow, h]

/-- `insert_user` rolls back on every failure, runs no write after a
failure, and errs exactly when its write failed. -/
theorem insert_user_clean (db : DB) (username email : String) (t : Nat) (f1 : Bool) :
    rollbackFollowsFailure (insert_user db username email t f1).2.1 = true ∧
    noWriteAfterFailure (insert_user db username email t f1).2.1 = true ∧
    (insert_user db username email t f1).2.1.any isFailedStmt =
      isErr (insert_user db username email t f1).2.2 := by
  cases f1 with
  | true =>
      exact ⟨rfl, rfl, rfl⟩
  | false =>
      cases h1 : insertUserRow db username email t with
      | ok v => simp [insert_user, execStmt, h1, rollbackFollowsFailure,
          noWriteAfterFailure, isFailedStmt, isErr]
      | error e => simp [insert_user, execStmt, h1, rollbackFollowsFailure,
          noWriteAfterFailure, isFailedStmt, isErr, isWriteStmt]

/-- `update_user_email` rolls back on every write failure, runs no
write after a failure, and never reports success when a write failed. -/
theorem update_user_email_clean (db : DB) (user_id t : Nat) (f1 : Bool) :
    rollbackFollowsFailure (update_user_email db user_id t f1).2.1 = true ∧
    noWriteAfterFailure (update_user_email db user_id t f1).2.1 = true ∧
    ((update_user_email db user_id t f1).2.1.any isFailedStmt &&
      !(isErr (update_user_email db user_id t f1).2.2)) = false := by
  cases hu : select_user_by_id db user_id with
  | none => simp [update_user_email, hu, rollbackFollowsFailure,
      noWriteAfterFailure, isFailedStmt, isErr]
  | some user =>
      cases f1 with
      | true =>
          simp [update_user_email, hu, execStmt_true, rollbackFollowsFailure,
            noWriteAfterFailure, isFailedStmt, isErr, isWriteStmt]
      | false =>
          cases h1 : updateUserEmailRow db ("updated_" ++ user.email) user_id t with
          | ok tx1 => simp [update_user_email, hu, execStmt_false, h1,
              rollbackFollowsFailure, noWriteAfterFailure, isFailedStmt, isErr]
          | error e => simp [update_user_email, hu, execStmt_false, h1,
              rollbackFollowsFailure, noWriteAfterFailure, isFailedStmt, isErr, isWriteStmt]

/-- `delete_oldest_user` rolls back on every write failure, runs no
write after a failure, and never reports success when a write failed. -/
theorem delete_oldest_user_clean (db : DB) (f1 : Bool) :
    rollbackFollowsFailure (delete_oldest_user db f1).2.1 = true ∧
    noWriteAfterFailure (delete_oldest_user db f1).2.1 = true ∧
    ((delete_oldest_user db f1).2.1.any isFailedStmt &&
      !(isErr (delete_oldest_user db f1).2.2)) = false := by
  cases hu : find_oldest_user db with
  | none => simp [delete_oldest_user, hu, rollbackFollowsFailure,
      noWriteAfterFailure, isFailedStmt, isErr]
  | some oldest =>
      cases f1 with
      | true =>
          simp [delete_oldest_user, hu, execStmt_true, rollbackFollowsFailure,
            noWriteAfterFailure, isFailedStmt, isErr, isWriteStmt]
      | false =>
          simp [delete_oldest_user, hu, execStmt_false, rollbackFollowsFailure,
            noWriteAfterFailure, isFailedStmt, isErr]

/-- `create_user_with_profile` rolls back on every write failure, runs
no write after a failure, and errs exactly when a write failed. -/
theorem create_user_with_profile_clean (db : DB) (username email : String)
    (t : Nat) (f1 f2 : Bool) :
    rollbackFollowsFailure (create_user_with_profile db username email t f1 f2).2.1 = true ∧
    noWriteAfterFailure (create_user_with_profile db username email t f1 f2).2.1 = true ∧
    (create_user_with_profile db username email t f1 f2).2.1.any isFailedStmt =
      isErr (create_user_with_profile db username email t f1 f2).2.2 := by
  cases f1 with
  | true =>
      simp [create_user_with_profile, execStmt_true, rollbackFollowsFailure,
        noWriteAfterFailure, isFailedStmt, isErr, isWriteStmt]
  | false =>
      cases h1 : insertUserRow db username email t with
      | error e =>
          simp [create_user_with_profile, execStmt_false, h1,
            rollbackFollowsFailure, noWriteAfterFailure, isFailedStmt, isErr, isWriteStmt]
      | ok v =>
          obtain ⟨tx1, user_id⟩ := v
          cases f2 with
          | true =>
              simp [create_user_with_profile, execStmt_false, execStmt_true, h1,
                rollbackFollowsFailure, noWriteAfterFailure, isFailedStmt, isErr, isWriteStmt]
          | false =>
              cases h2 : insertProfileRow tx1 user_id (username ++ " Smith")
                  (some "这是一个示例个人简介") (some "https://example.com/avatar.png") t with
              | error e =>
                  simp [create_user_with_profile, execStmt_false, h1, h2,
                    rollbackFollowsFailure, noWriteAfterFailure, isFailedStmt, isErr, isWriteStmt]
              | ok w =>
                  simp [create_user_with_profile, execStmt_false, h1, h2,
                    rollbackFollowsFailure, noWriteAfterFailure, isFailedStmt, isErr]

/-- `update_user_and_profile` rolls back on every write failure, runs
no write after a failure, and errs exactly when a write failed. -/
theorem update_user_and_profile_clean (db : DB) (user_id : Nat)
    (rand1 rand2 : String) (t : Nat) (f1 f2 : Bool) :
    rollbackFollowsFailure (update_user_and_profile db user_id rand1 rand2 t f1 f2).2.1 = true ∧
    noWriteAfterFailure (update_user_and_profile db user_id rand1 rand2 t f1 f2).2.1 = true ∧
    (update_user_and_profile db user_id rand1 rand2 t f1 f2).2.1.any isFailedStmt =
      isErr (update_user_and_profile db user_id rand1 rand2 t f1 f2).2.2 := by
  cases f1 with
  | true =>
      simp [update_user_and_profile, execStmt_true, rollbackFollowsFailure,
        noWriteAfterFailure, isFailedStmt, isErr, isWriteStmt]
  | false =>
      cases h1 : updateUserEmailRow db ("updated_" ++ rand1 ++ "@example.com") user_id t with
      | error e =>
          simp [update_user_and_profile, execStmt_false, h1,
            rollbackFollowsFailure, noWriteAfterFailure, isFailedStmt, isErr, isWriteStmt]
      | ok tx1 =>
          cases f2 with
          | true =>
              simp [update_user_and_profile, execStmt_false, execStmt_true, h1,
                rollbackFollowsFailure, noWriteAfterFailure, isFailedStmt, isErr, isWriteStmt]
          | false =>
              simp [update_user_and_profile, execStmt_false, h1,
                rollbackFollowsFailure, noWriteAfterFailure, isFailedStmt, isErr]

/-- `delete_user_and_profile` rolls back on every write failure, runs
no write after a failure, and errs exactly when a write failed. -/
theorem delete_user_and_profile_clean (db : DB) (user_id : Nat) (f1 f2 : Bool) :
    rollbackFollowsFailure (delete_user_and_profile db user_id f1 f2).2.1 = true ∧
    noWriteAfterFailure (delete_user_and_profile db user_id f1 f2).2.1 = true ∧
    (delete_user_and_profile db user_id f1 f2).2.1.any isFailedStmt =
      isErr (delete_user_and_profile db user_id f1 f2).2.2 := by
  cases f1 <;> cases f2 <;>
    simp [delete_user_and_profile, execStmt_true, execStmt_false,
      rollbackFollowsFailure, noWriteAfterFailure, isFailedStmt, isErr, isWriteStmt]

/-- `test_transaction_rollback` rolls back on every write failure and
runs no write after a failure (its expected failure is absorbed). -/
theorem test_transaction_rollback_clean (db : DB) (newUsername : String)
    (t : Nat) (f1 : Bool) :
    rollbackFollowsFailure (test_transaction_rollback db newUsername t f1).2.1 = true ∧
    noWriteAfterFailure (test_transaction_rollback db newUsername t f1).2.1 = true := by
  cases hu : db.users with
  | nil => simp [test_transaction_rollback, select_all_users, hu,
      rollbackFollowsFailure, noWriteAfterFailure]
  | cons ex rest =>
      have hins := insertUserRow_dup_email db ex rest hu newUsername t
      cases f1 with
      | true =>
          simp [test_transaction_rollback, select_all_users, hu, execStmt_true,
            rollbackFollowsFailure, noWriteAfterFailure, isWriteStmt, writeSqls,
            isFailedStmt]
          decide
      | false =>
          simp [test_transaction_rollback, select_all_users, hu, execStmt_false,
            hins, rollbackFollowsFailure, noWriteAfterFailure, isWriteStmt,
            writeSqls, isFailedStmt]
          decide

/-- `test_multi_table_transaction_rollback` rolls back on every write
failure and runs no write after a failure. -/
theorem test_multi_table_transaction_rollback_clean (db : DB)
    (newEmail : String) (t : Nat) (f1 f2 : Bool) :
    rollbackFollowsFailure (test_multi_table_transaction_rollback db newEmail t f1 f2).2.1 = true ∧
    noWriteAfterFailure (test_multi_table_transaction_rollback db newEmail t f1 f2).2.1 = true := by
  cases hu : db.users with
  | nil => simp [test_multi_table_transaction_rollback, select_all_users, hu,
      rollbackFollowsFailure, noWriteAfterFailure]
  | cons ex rest =>
      have hins := insertUserRow_dup_username db ex rest hu newEmail t
      cases f1 with
      | true =>
          simp [test_multi_table_transaction_rollback, select_all_users, hu,
            execStmt_true, rollbackFollowsFailure, noWriteAfterFailure,
            isWriteStmt, writeSqls, isFailedStmt]
          decide
      | false =>
          simp [test_multi_table_transaction_rollback, select_all_users, hu,
            execStmt_false, hins, rollbackFollowsFailure, noWriteAfterFailure,
            isWriteStmt, writeSqls, isFailedStmt]
          decide

theorem and_not_self_eq_false (a : Bool) : (a && !a) = false := by
  cases a <;> rfl

/-- C2: for every deliberately-failing transaction run by the rollback
demonstrations (`test_transaction_rollback` and
`test_multi_table_transaction_rollback`), the row counts of the `users`
and `profiles` tables after the operation equal their row counts before
it. (Proved unconditionally: the deliberate duplicate insert can never
succeed, so every path through the demonstrations leaves both counts
unchanged.) -/
theorem rollback_tests_preserve_row_counts (db : DB)
    (newUsername newEmail : String) (t : Nat) (f1 f2 f3 : Bool) :
    ((test_transaction_rollback db newUsername t f1).1.users.length = db.users.length ∧
     (test_transaction_rollback db newUsername t f1).1.profiles.length = db.profiles.length) ∧
    ((test_multi_table_transaction_rollback db newEmail t f2 f3).1.users.length = db.users.length ∧
     (test_multi_table_transaction_rollback db newEmail t f2 f3).1.profiles.length = db.profiles.length) := by
  constructor
  · cases hu : db.users with
    | nil => simp [test_transaction_rollback, select_all_users, hu]
    | cons ex rest =>
        have hins := insertUserRow_dup_email db ex rest hu newUsername t
        cases f1 with
        | true => simp [test_transaction_rollback, select_all_users, hu, execStmt_true]
        | false => simp [test_transaction_rollback, select_all_users, hu, execStmt_false, hins]
  · cases hu : db.users with
    | nil => simp [test_multi_table_transaction_rollback, select_all_users, hu]
    | cons ex rest =>
        have hins := insertUserRow_dup_username db ex rest hu newEmail t
        cases f2 with
        | true => simp [test_multi_table_transaction_rollback, select_all_users, hu, execStmt_true]
        | false => simp [test_multi_table_transaction_rollback, select_all_users, hu, execStmt_false, hins]

/-- C3: in each multi-write transactional operation
(`create_user_with_profile`, `update_user_and_profile`,
`delete_user_and_profile`), if any write fails then no write executes
after the failure, the failed statement is immediately followed by a
rollback, and the operation reports an error exactly when a write
failed (the error is propagated, never absorbed). -/
theorem multi_write_ops_fail_atomically (db : DB)
    (username email rand1 rand2 : String) (user_id t : Nat)
    (f1 f2 f3 f4 f5 f6 : Bool) :
    (noWriteAfterFailure (create_user_with_profile db username email t f1 f2).2.1 = true ∧
     rollbackFollowsFailure (create_user_with_profile db username email t f1 f2).2.1 = true ∧
     (create_user_with_profile db username email t f1 f2).2.1.any isFailedStmt =
       isErr (create_user_with_profile db username email t f1 f2).2.2) ∧
    (noWriteAfterFailure (update_user_and_profile db user_id rand1 rand2 t f3 f4).2.1 = true ∧
     rollbackFollowsFailure (update_user_and_profile db user_id rand1 rand2 t f3 f4).2.1 = true ∧
     (update_user_and_profile db user_id rand1 rand2 t f3 f4).2.1.any isFailedStmt =
       isErr (update_user_and_profile db user_id rand1 rand2 t f3 f4).2.2) ∧
    (noWriteAfterFailure (delete_user_and_profile db user_id f5 f6).2.1 = true ∧
     rollbackFollowsFailure (delete_user_and_profile db user_id f5 f6).2.1 = true ∧
     (delete_user_and_profile db user_id f5 f6).2.1.any isFailedStmt =
       isErr (delete_user_and_profile db user_id f5 f6).2.2) := by
  obtain ⟨a1, b1, c1⟩ := create_user_with_profile_clean db username email t f1 f2
  obtain ⟨a2, b2, c2⟩ := update_user_and_profile_clean db user_id rand1 rand2 t f3 f4
  obtain ⟨a3, b3, c3⟩ := delete_user_and_profile_clean db user_id f5 f6
  exact ⟨⟨b1, a1, c1⟩, ⟨b2, a2, c2⟩, ⟨b3, a3, c3⟩⟩

/-- C8: `delete_user_and_profile` issues exactly the two deletes, the
profile delete (by `user_id`) first and the user delete second, and the
trace ends in a commit exactly on the path where both deletes succeed;
on the all-success path the post-state is the pre-state with the
profile row then the user row removed. -/
theorem delete_user_and_profile_sequence (db : DB) (user_id : Nat) (f1 f2 : Bool) :
    (delete_user_and_profile db user_id f1 f2).2.1 =
      (if f1 then
         [Event.stmt DELETE_PROFILE_SQL [Val.num user_id] false, Event.rollback]
       else if f2 then
         [Event.stmt DELETE_PROFILE_SQL [Val.num user_id] true,
          Event.stmt DELETE_USER_SQL [Val.num user_id] false, Event.rollback]
       else
         [Event.stmt DELETE_PROFILE_SQL [Val.num user_id] true,
          Event.stmt DELETE_USER_SQL [Val.num user_id] true, Event.commit]) ∧
    (delete_user_and_profile db user_id false false).1 =
      deleteUserRow (deleteProfileRow db user_id) user_id ∧
    (delete_user_and_profile db user_id false false).2.2 = .ok () := by
  refine ⟨?_, rfl, rfl⟩
  cases f1 <;> cases f2 <;> rfl

/-- An example state holding one user, used to exercise the rollback
demonstrations and the transactional operations on concrete input. -/
def dbOneUser : DB :=
  { users := [{ id := 1, username := "alice", email := "alice@example.com",
                created_at := 0, updated_at := 0 }],
    profiles := [], nextUserId := 2, nextProfileId := 1 }

/-- C4 counterexample: in `test_transaction_rollback` the deliberate
duplicate-email insert fails and the transaction rolls back, yet the
function returns success — the write failure is not propagated to the
caller, so not every failure path propagates the underlying error. -/
theorem rollback_test_swallows_error :
    (test_transaction_rollback dbOneUser "bob" 1 false).2.1.any isFailedStmt = true ∧
    Event.rollback ∈ (test_transaction_rollback dbOneUser "bob" 1 false).2.1 ∧
    (test_transaction_rollback dbOneUser "bob" 1 false).2.2 = .ok () := by
  refine ⟨rfl, by decide, rfl⟩

/-- C4 (amended): every failure path of every transactional operation
performs rollback first; every operation except the two rollback
demonstrations then propagates the underlying error (never reporting
success after a failed write); the demonstrations
(`test_transaction_rollback`, `test_multi_table_transaction_rollback`)
roll back and then deliberately return success for their expected
failure. -/
theorem failure_paths_roll_back_first (db : DB)
    (username email rand1 rand2 newUsername newEmail : String)
    (user_id t : Nat) (f1 f2 f3 f4 f5 f6 f7 f8 f9 f10 f11 f12 : Bool) :
    (rollbackFollowsFailure (insert_user db username email t f1).2.1 = true ∧
     ((insert_user db username email t f1).2.1.any isFailedStmt &&
       !(isErr (insert_user db username email t f1).2.2)) = false) ∧
    (rollbackFollowsFailure (update_user_email db user_id t f2).2.1 = true ∧
     ((update_user_email db user_id t f2).2.1.any isFailedStmt &&
       !(isErr (update_user_email db user_id t f2).2.2)) = false) ∧
    (rollbackFollowsFailure (delete_oldest_user db f3).2.1 = true ∧
     ((delete_oldest_user db f3).2.1.any isFailedStmt &&
       !(isErr (delete_oldest_user db f3).2.2)) = false) ∧
    (rollbackFollowsFailure (create_user_with_profile db username email t f4 f5).2.1 = true ∧
     ((create_user_with_profile db username email t f4 f5).2.1.any isFailedStmt &&
       !(isErr (create_user_with_profile db username email t f4 f5).2.2)) = false) ∧
    (rollbackFollowsFailure (update_user_and_profile db user_id rand1 rand2 t f6 f7).2.1 = true ∧
     ((update_user_and_profile db user_id rand1 rand2 t f6 f7).2.1.any isFailedStmt &&
       !(isErr (update_user_and_profile db user_id rand1 rand2 t f6 f7).2.2)) = false) ∧
    (rollbackFollowsFailure (delete_user_and_profile db user_id f8 f9).2.1 = true ∧
     ((delete_user_and_profile db user_id f8 f9).2.1.any isFailedStmt &&
       !(isErr (delete_user_and_profile db user_id f8 f9).2.2)) = false) ∧
    rollbackFollowsFailure (test_transaction_rollback db newUsername t f10).2.1 = true ∧
    rollbackFollowsFailure (test_multi_table_transaction_rollback db newEmail t f11 f12).2.1 = true := by
  obtain ⟨a1, -, c1⟩ := insert_user_clean db username email t f1
  obtain ⟨a2, -, c2⟩ := update_user_email_clean db user_id t f2
  obtain ⟨a3, -, c3⟩ := delete_oldest_user_clean db f3
  obtain ⟨a4, -, c4⟩ := create_user_with_profile_clean db username email t f4 f5
  obtain ⟨a5, -, c5⟩ := update_user_and_profile_clean db user_id rand1 rand2 t f6 f7
  obtain ⟨a6, -, c6⟩ := delete_user_and_profile_clean db user_id f8 f9
  obtain ⟨a7, -⟩ := test_transaction_rollback_clean db newUsername t f10
  obtain ⟨a8, -⟩ := test_multi_table_transaction_rollback_clean db newEmail t f11 f12
  refine ⟨⟨a1, ?_⟩, ⟨a2, c2⟩, ⟨a3, c3⟩, ⟨a4, ?_⟩, ⟨a5, ?_⟩, ⟨a6, ?_⟩, a7, a8⟩
  · rw [c1]; exact and_not_self_eq_false _
  · rw [c4]; exact and_not_self_eq_false _
  · rw [c5]; exact and_not_self_eq_false _
  · rw [c6]; exact and_not_self_eq_false _

/-- C1: in every execution of `create_user_with_profile` in which the
user insert succeeds and the subsequent profile insert fails, the
transaction is rolled back and the error propagated, and the post-state
is the pre-state: re-querying the fresh user id finds neither the user
nor the profile (under the auto-increment invariant that every existing
row id is below the counter). -/
theorem create_user_with_profile_rolls_back_on_profile_failure (db : DB)
    (username email : String) (t : Nat) (f1 f2 : Bool) (tx1 : DB)
    (user_id : Nat) (e : AppError)
    (hid : ∀ u ∈ db.users, u.id < db.nextUserId)
    (hfk : ∀ p ∈ db.profiles, p.user_id < db.nextUserId)
    (h1 : execStmt f1 (insertUserRow db username email t) = .ok (tx1, user_id))
    (h2 : execStmt f2 (insertProfileRow tx1 user_id (username ++ " Smith")
            (some "这是一个示例个人简介") (some "https://example.com/avatar.png") t)
          = .error e) :
    (create_user_with_profile db username email t f1 f2).1 = db ∧
    (create_user_with_profile db username email t f1 f2).2.2 = .error e ∧
    Event.rollback ∈ (create_user_with_profile db username email t f1 f2).2.1 ∧
    select_user_by_id (create_user_with_profile db username email t f1 f2).1 user_id = none ∧
    select_profile_by_user_id (create_user_with_profile db username email t f1 f2).1 user_id = none := by
  cases f1 with
  | true => simp [execStmt] at h1
  | false =>
      rw [execStmt_false] at h1
      have h1c := h1
      simp only [insertUserRow] at h1c
      by_cases hc : db.users.any (fun u => u.username == username || u.email == email) = true
      · simp [hc] at h1c
      · simp [hc] at h1c
        obtain ⟨htx, huid⟩ := h1c
        have hop : create_user_with_profile db username email t false f2 =
            (db, [Event.stmt INSERT_USER_SQL [Val.str username, Val.str email] true,
                  Event.stmt INSERT_PROFILE_SQL
                    [Val.num user_id, Val.str (username ++ " Smith"),
                     Val.optStr (some "这是一个示例个人简介"),
                     Val.optStr (some "https://example.com/avatar.png")] false,
                  Event.rollback], Except.error e) := by
          simp only [create_user_with_profile, execStmt_false, h1, h2]
        rw [hop]
        have huser : select_user_by_id db user_id = none := by
          simp only [select_user_by_id, List.find?_eq_none, beq_iff_eq]
          intro u hu
          exact Nat.ne_of_lt (huid ▸ hid u hu)
        have hprofile : select_profile_by_user_id db user_id = none := by
          simp only [select_profile_by_user_id, List.find?_eq_none, beq_iff_eq]
          intro p hp
          exact Nat.ne_of_lt (huid ▸ hfk p hp)
        exact ⟨rfl, rfl, by simp, huser, hprofile⟩

/-- C1 witness: on the empty database, a connectivity fault on the
profile insert makes `create_user_with_profile` roll back the freshly
inserted user. -/
theorem create_user_with_profile_rolls_back_on_profile_failure_witness :
    (create_user_with_profile ⟨[], [], 1, 1⟩ "alice" "alice@example.com" 0 false true).1 = ⟨[], [], 1, 1⟩ ∧
    (create_user_with_profile ⟨[], [], 1, 1⟩ "alice" "alice@example.com" 0 false true).2.2 =
      .error .connectivity ∧
    Event.rollback ∈ (create_user_with_profile ⟨[], [], 1, 1⟩ "alice" "alice@example.com" 0 false true).2.1 ∧
    select_user_by_id (create_user_with_profile ⟨[], [], 1, 1⟩ "alice" "alice@example.com" 0 false true).1 1 = none ∧
    select_profile_by_user_id (create_user_with_profile ⟨[], [], 1, 1⟩ "alice" "alice@example.com" 0 false true).1 1 = none :=
  create_user_with_profile_rolls_back_on_profile_failure ⟨[], [], 1, 1⟩ "alice"
    "alice@example.com" 0 false true
    ⟨[{ id := 1, username := "alice", email := "alice@example.com",
        created_at := 0, updated_at := 0 }], [], 2, 1⟩
    1 .connectivity (by simp) (by simp) rfl rfl

/-- Mapping a function that fixes every member of a list leaves it unchanged. -/
theorem map_id_of_mem (l : List α) (f : α → α) (h : ∀ x ∈ l, f x = x) :
    l.map f = l := by
  induction l with
  | nil => rfl
  | cons x rest ih =>
      simp only [List.map_cons, h x (by simp)]
      rw [ih (fun y hy => h y (by simp [hy]))]

/-- C5 counterexample: on the empty database, updating user 5's email
and deleting the oldest user both return an error even though the
missing target row is just an empty result at the query level — so a
missing row is not always represented as `None`. -/
theorem missing_row_sometimes_an_error :
    select_user_by_id ⟨[], [], 1, 1⟩ 5 = none ∧
    (update_user_email ⟨[], [], 1, 1⟩ 5 0 false).2.2 = .error (.userNotFound 5) ∧
    (delete_oldest_user ⟨[], [], 1, 1⟩ false).2.2 = .error .noUserToDelete :=
  ⟨rfl, rfl, rfl⟩

/-- C5 (amended): `select_user_by_id` and `find_oldest_user` report a
missing row as `none`, never as an error, and the pair operations
(`delete_user_and_profile`, `update_user_and_profile`) succeed on an
absent target, affecting zero rows; but `update_user_email` and
`delete_oldest_user` return an application error when their target user
is absent. -/
theorem missing_row_handling (db : DB) (id t : Nat) (f1 : Bool)
    (rand1 rand2 : String) :
    (select_user_by_id db id = none ↔ ∀ u ∈ db.users, u.id ≠ id) ∧
    (find_oldest_user db = none ↔ db.users = []) ∧
    (select_user_by_id db id = none →
      (update_user_email db id t f1).2.2 = .error (.userNotFound id) ∧
      (update_user_email db id t f1).1 = db) ∧
    (db.users = [] →
      (delete_oldest_user db f1).2.2 = .error .noUserToDelete ∧
      (delete_oldest_user db f1).1 = db) ∧
    ((delete_user_and_profile db id false false).2.2 = .ok ()) ∧
    ((∀ u ∈ db.users, u.id ≠ id) → (∀ p ∈ db.profiles, p.user_id ≠ id) →
      (delete_user_and_profile db id false false).1 = db) ∧
    ((∀ u ∈ db.users, u.id ≠ id) →
      (update_user_and_profile db id rand1 rand2 t false false).2.2 = .ok () ∧
      ((∀ p ∈ db.profiles, p.user_id ≠ id) →
        (update_user_and_profile db id rand1 rand2 t false false).1 = db)) := by
  refine ⟨?_, ?_, ?_, ?_, rfl, ?_, ?_⟩
  · simp [select_user_by_id, List.find?_eq_none]
  · cases hu : db.users <;> simp [find_oldest_user, hu]
  · intro hnone
    simp [update_user_email, hnone]
  · intro hnil
    simp [delete_oldest_user, find_oldest_user, hnil]
  · intro hu hp
    have h1 : db.profiles.filter (fun p => p.user_id != id) = db.profiles :=
      List.filter_eq_self.mpr (fun p hpm => by simpa using hp p hpm)
    have h2 : db.users.filter (fun u => u.id != id) = db.users :=
      List.filter_eq_self.mpr (fun u hum => by simpa using hu u hum)
    show deleteUserRow (deleteProfileRow db id) id = db
    simp [deleteUserRow, deleteProfileRow, h1, h2]
  · intro hu
    have hany : db.users.any (fun u => u.id == id) = false := by
      rw [List.any_eq_false]
      intro u hum
      simp [hu u hum]
    have hmapu : db.users.map (fun u =>
        if u.id == id then
          { u with email := "updated_" ++ rand1 ++ "@example.com", updated_at := t }
        else u) = db.users :=
      map_id_of_mem _ _ (fun u hum => by simp [hu u hum])
    have hrow : updateUserEmailRow db ("updated_" ++ rand1 ++ "@example.com") id t =
        .ok db := by
      simp only [updateUserEmailRow, hany, Bool.false_and, Bool.false_eq_true, if_false]
      rw [hmapu]
    constructor
    · simp [update_user_and_profile, execStmt_false, hrow]
    · intro hp
      have hmapp : db.profiles.map (fun p =>
          if p.user_id == id then
            { p with full_name := "Updated " ++ rand2,
                     bio := some "更新后的个人简介",
                     avatar_url := some "https://example.com/updated-avatar.png",
                     updated_at := t }
          else p) = db.profiles :=
        map_id_of_mem _ _ (fun p hpm => by simp [hp p hpm])
      have hprow : updateProfileRow db ("Updated " ++ rand2) (some "更新后的个人简介")
          (some "https://example.com/updated-avatar.png") id t = db := by
        simp only [updateProfileRow]
        rw [hmapp]
      simp [update_user_and_profile, execStmt_false, hrow, hprow]

/-- C5 witness: the amended missing-row theorem applied at a concrete
state with one user and the absent id 5. -/
theorem missing_row_handling_witness :
    (update_user_email dbOneUser 5 0 false).2.2 = .error (.userNotFound 5) ∧
    (update_user_email dbOneUser 5 0 false).1 = dbOneUser :=
  (missing_row_handling dbOneUser 5 0 false "r1" "r2").2.2.1 rfl

/-- C6: `create_pool` attempts the configured URL once; on failure it
retries exactly once with `"?ssl-mode=disabled"` appended to the same
URL; it fails only when both attempts fail, and any returned pool has
the fixed capacity of 5 connections. -/
theorem create_pool_retry_policy (connectOk : String → Bool) (url : String) :
    (connectOk url = true →
      create_pool connectOk url =
        ([url], .ok { url := url, max_connections := 5 })) ∧
    (connectOk url = false → connectOk (url ++ "?ssl-mode=disabled") = true →
      create_pool connectOk url =
        ([url, url ++ "?ssl-mode=disabled"],
         .ok { url := url ++ "?ssl-mode=disabled", max_connections := 5 })) ∧
    (connectOk url = false → connectOk (url ++ "?ssl-mode=disabled") = false →
      create_pool connectOk url =
        ([url, url ++ "?ssl-mode=disabled"], .error .connectionFailed)) ∧
    (∀ p, (create_pool connectOk url).2 = .ok p → p.max_connections = 5) := by
  refine ⟨?_, ?_, ?_, ?_⟩
  · intro h
    simp [create_pool, h]
  · intro h1 h2
    simp [create_pool, h1, h2]
  · intro h1 h2
    simp [create_pool, h1, h2]
  · intro p hp
    by_cases h1 : connectOk url = true
    · simp [create_pool, h1] at hp
      simp [← hp]
    · by_cases h2 : connectOk (url ++ "?ssl-mode=disabled") = true
      · simp [create_pool, h1, h2] at hp
        simp [← hp]
      · simp [create_pool, h1, h2] at hp

/-- C6 witness: the retry policy evaluated on an always-succeeding and
an always-failing environment. -/
theorem create_pool_retry_policy_witness :
    create_pool (fun _ => true) "mysql://root@localhost:3306/airflow" =
      (["mysql://root@localhost:3306/airflow"],
       .ok { url := "mysql://root@localhost:3306/airflow", max_connections := 5 }) ∧
    create_pool (fun _ => false) "u" =
      (["u", "u" ++ "?ssl-mode=disabled"], .error .connectionFailed) :=
  ⟨(create_pool_retry_policy (fun _ => true) "mysql://root@localhost:3306/airflow").1 rfl,
   (create_pool_retry_policy (fun _ => false) "u").2.2.1 rfl rfl⟩

/-- The row picked by `oldestOf` is the seed or one of the candidates. -/
theorem oldestOf_mem (u : UserRow) (l : List UserRow) :
    oldestOf u l = u ∨ oldestOf u l ∈ l := by
  induction l generalizing u with
  | nil => exact Or.inl rfl
  | cons v rest ih =>
      rw [oldestOf]
      by_cases h : v.created_at < u.created_at
      · rw [if_pos h]
        rcases ih v with h2 | h2
        · exact Or.inr (by rw [h2]; exact List.mem_cons_self v rest)
        · exact Or.inr (List.mem_cons_of_mem v h2)
      · rw [if_neg h]
        rcases ih u with h2 | h2
        · exact Or.inl h2
        · exact Or.inr (List.mem_cons_of_mem v h2)

/-- The row picked by `oldestOf` has the least `created_at` among the
seed and all candidates. -/
theorem oldestOf_le (u : UserRow) (l : List UserRow) :
    (oldestOf u l).created_at ≤ u.created_at ∧
    ∀ v ∈ l, (oldestOf u l).created_at ≤ v.created_at := by
  induction l generalizing u with
  | nil => exact ⟨Nat.le_refl _, by simp⟩
  | cons v rest ih =>
      rw [oldestOf]
      by_cases h : v.created_at < u.created_at
      · rw [if_pos h]
        obtain ⟨h1, h2⟩ := ih v
        refine ⟨Nat.le_trans h1 (Nat.le_of_lt h), ?_⟩
        intro w hw
        rcases List.mem_cons.mp hw with rfl | hw2
        · exact h1
        · exact h2 w hw2
      · rw [if_neg h]
        obtain ⟨h1, h2⟩ := ih u
        refine ⟨h1, ?_⟩
        intro w hw
        rcases List.mem_cons.mp hw with rfl | hw2
        · exact Nat.le_trans h1 (Nat.le_of_not_lt h)
        · exact h2 w hw2

/-- C7: `find_oldest_user` returns `none` exactly on an empty table,
and any returned user is a stored row whose `created_at` is minimal
among all rows — the first row under ascending creation-timestamp
order. -/
theorem find_oldest_user_minimal (db : DB) :
    (find_oldest_user db = none ↔ db.users = []) ∧
    ∀ u, find_oldest_user db = some u →
      u ∈ db.users ∧ ∀ v ∈ db.users, u.created_at ≤ v.created_at := by
  cases hu : db.users with
  | nil =>
      constructor
      · simp [find_oldest_user, hu]
      · intro u h
        rw [find_oldest_user, hu] at h
        cases h
  | cons x rest =>
      constructor
      · simp [find_oldest_user, hu]
      · intro u h
        rw [find_oldest_user, hu] at h
        simp only [Option.some.injEq] at h
        subst h
        constructor
        · rcases oldestOf_mem x rest with h2 | h2
          · rw [h2]
            exact List.mem_cons_self x rest
          · exact List.mem_cons_of_mem x h2
        · intro v hv
          obtain ⟨h1, h2⟩ := oldestOf_le x rest
          rcases List.mem_cons.mp hv with rfl | hv2
          · exact h1
          · exact h2 v hv2

/-- The later-created of the two example users. -/
def userNewer : UserRow :=
  { id := 1, username := "alice", email := "alice@example.com",
    created_at := 5, updated_at := 5 }

/-- The earlier-created of the two example users. -/
def userOlder : UserRow :=
  { id := 2, username := "bob", email := "bob@example.com",
    created_at := 3, updated_at := 3 }

/-- An example state with two users of distinct creation timestamps. -/
def dbTwoUsers : DB :=
  { users := [userNewer, userOlder], profiles := [],
    nextUserId := 3, nextProfileId := 1 }

/-- C7 witness: on the two-user example state, `find_oldest_user`
returns the earlier-created row, which is stored and not later than the
other row. -/
theorem find_oldest_user_minimal_witness :
    userOlder ∈ dbTwoUsers.users ∧ userOlder.created_at ≤ userNewer.created_at :=
  ⟨((find_oldest_user_minimal dbTwoUsers).2 userOlder (by decide)).1,
   ((find_oldest_user_minimal dbTwoUsers).2 userOlder (by decide)).2 userNewer (by decide)⟩

/-- Of two truncations of the same list, one is a truncation of the
other, so they agree position by position on their common length. -/
theorem take_agree (L l1 l2 : List α) (h1 : ∃ n, l1 = L.take n)
    (h2 : ∃ m, l2 = L.take m) :
    (∃ k, l1 = l2.take k) ∨ (∃ k, l2 = l1.take k) := by
  obtain ⟨n, rfl⟩ := h1
  obtain ⟨m, rfl⟩ := h2
  rcases Nat.le_total n m with h | h
  · exact Or.inl ⟨n, by rw [List.take_take, Nat.min_eq_left h]⟩
  · exact Or.inr ⟨m, by rw [List.take_take, Nat.min_eq_left h]⟩

/-- The SQL texts `insert_user` issues form a truncation of a fixed
constant list, whatever the state, inputs and faults. -/
theorem insert_user_texts (db : DB) (username email : String) (t : Nat) (f1 : Bool) :
    ∃ n, sqlTexts (insert_user db username email t f1).2.1 =
      [INSERT_USER_SQL].take n := by
  cases f1 with
  | true => exact ⟨1, rfl⟩
  | false =>
      cases h1 : insertUserRow db username email t with
      | ok v => exact ⟨1, by simp [insert_user, execStmt_false, h1, sqlTexts]⟩
      | error e => exact ⟨1, by simp [insert_user, execStmt_false, h1, sqlTexts]⟩

/-- The SQL texts `update_user_email` issues form a truncation of a
fixed constant list. -/
theorem update_user_email_texts (db : DB) (user_id t : Nat) (f1 : Bool) :
    ∃ n, sqlTexts (update_user_email db user_id t f1).2.1 =
      [SELECT_USER_BY_ID_SQL, UPDATE_USER_SQL, SELECT_USER_BY_ID_SQL].take n := by
  cases hu : select_user_by_id db user_id with
  | none => exact ⟨1, by simp [update_user_email, hu, sqlTexts]⟩
  | some user =>
      cases f1 with
      | true => exact ⟨2, by simp [update_user_email, hu, execStmt_true, sqlTexts]⟩
      | false =>
          cases h1 : updateUserEmailRow db ("updated_" ++ user.email) user_id t with
          | ok tx1 => exact ⟨3, by simp [update_user_email, hu, execStmt_false, h1, sqlTexts]⟩
          | error e => exact ⟨2, by simp [update_user_email, hu, execStmt_false, h1, sqlTexts]⟩

/-- The SQL texts `delete_oldest_user` issues form a truncation of a
fixed constant list. -/
theorem delete_oldest_user_texts (db : DB) (f1 : Bool) :
    ∃ n, sqlTexts (delete_oldest_user db f1).2.1 =
      [FIND_OLDEST_USER_SQL, DELETE_USER_SQL].take n := by
  cases hu : find_oldest_user db with
  | none => exact ⟨1, by simp [delete_oldest_user, hu, sqlTexts]⟩
  | some oldest =>
      cases f1 with
      | true => exact ⟨2, by simp [delete_oldest_user, hu, execStmt_true, sqlTexts]⟩
      | false => exact ⟨2, by simp [delete_oldest_user, hu, execStmt_false, sqlTexts]⟩

/-- The SQL texts `create_user_with_profile` issues form a truncation
of a fixed constant list. -/
theorem create_user_with_profile_texts (db : DB) (username email : String)
    (t : Nat) (f1 f2 : Bool) :
    ∃ n, sqlTexts (create_user_with_profile db username email t f1 f2).2.1 =
      [INSERT_USER_SQL, INSERT_PROFILE_SQL].take n := by
  cases f1 with
  | true => exact ⟨1, by simp [create_user_with_profile, execStmt_true, sqlTexts]⟩
  | false =>
      cases h1 : insertUserRow db username email t with
      | error e => exact ⟨1, by simp [create_user_with_profile, execStmt_false, h1, sqlTexts]⟩
      | ok v =>
          obtain ⟨tx1, uid⟩ := v
          cases f2 with
          | true => exact ⟨2, by simp [create_user_with_profile, execStmt_false,
              execStmt_true, h1, sqlTexts]⟩
          | false =>
              cases h2 : insertProfileRow tx1 uid (username ++ " Smith")
                  (some "这是一个示例个人简介") (some "https://example.com/avatar.png") t with
              | error e => exact ⟨2, by simp [create_user_with_profile, execStmt_false,
                  h1, h2, sqlTexts]⟩
              | ok w => exact ⟨2, by simp [create_user_with_profile, execStmt_false,
                  h1, h2, sqlTexts]⟩

/-- The SQL texts `update_user_and_profile` issues form a truncation of
a fixed constant list. -/
theorem update_user_and_profile_texts (db : DB) (user_id : Nat)
    (rand1 rand2 : String) (t : Nat) (f1 f2 : Bool) :
    ∃ n, sqlTexts (update_user_and_profile db user_id rand1 rand2 t f1 f2).2.1 =
      [UPDATE_USER_SQL, UPDATE_PROFILE_SQL].take n := by
  cases f1 with
  | true => exact ⟨1, by simp [update_user_and_profile, execStmt_true, sqlTexts]⟩
  | false =>
      cases h1 : updateUserEmailRow db ("updated_" ++ rand1 ++ "@example.com") user_id t with
      | error e => exact ⟨1, by simp [update_user_and_profile, execStmt_false, h1, sqlTexts]⟩
      | ok tx1 =>
          cases f2 with
          | true => exact ⟨2, by simp [update_user_and_profile, execStmt_false,
              execStmt_true, h1, sqlTexts]⟩
          | false => exact ⟨2, by simp [update_user_and_profile, execStmt_false,
              h1, sqlTexts]⟩

/-- The SQL texts `delete_user_and_profile` issues form a truncation of
a fixed constant list. -/
theorem delete_user_and_profile_texts (db : DB) (user_id : Nat) (f1 f2 : Bool) :
    ∃ n, sqlTexts (delete_user_and_profile db user_id f1 f2).2.1 =
      [DELETE_PROFILE_SQL, DELETE_USER_SQL].take n := by
  cases f1 with
  | true => exact ⟨1, rfl⟩
  | false =>
      cases f2 with
      | true => exact ⟨2, rfl⟩
      | false => exact ⟨2, rfl⟩

/-- The SQL texts `test_transaction_rollback` issues form a truncation
of a fixed constant list. -/
theorem test_transaction_rollback_texts (db : DB) (newUsername : String)
    (t : Nat) (f1 : Bool) :
    ∃ n, sqlTexts (test_transaction_rollback db newUsername t f1).2.1 =
      [SELECT_ALL_USERS_SQL, INSERT_USER_SQL, SELECT_ALL_USERS_SQL].take n := by
  cases hu : db.users with
  | nil => exact ⟨1, by simp [test_transaction_rollback, select_all_users, hu, sqlTexts]⟩
  | cons ex rest =>
      have hins := insertUserRow_dup_email db ex rest hu newUsername t
      cases f1 with
      | true => exact ⟨3, by simp [test_transaction_rollback, select_all_users, hu,
          execStmt_true, sqlTexts]⟩
      | false => exact ⟨3, by simp [test_transaction_rollback, select_all_users, hu,
          execStmt_false, hins, sqlTexts]⟩

/-- The SQL texts `test_multi_table_transaction_rollback` issues form a
truncation of a fixed constant list. -/
theorem test_multi_table_transaction_rollback_texts (db : DB)
    (newEmail : String) (t : Nat) (f1 f2 : Bool) :
    ∃ n, sqlTexts (test_multi_table_transaction_rollback db newEmail t f1 f2).2.1 =
      [SELECT_ALL_USERS_SQL, INSERT_USER_SQL, SELECT_ALL_USERS_SQL,
       SELECT_ALL_PROFILES_SQL].take n := by
  cases hu : db.users with
  | nil => exact ⟨1, by simp [test_multi_table_transaction_rollback,
      select_all_users, hu, sqlTexts]⟩
  | cons ex rest =>
      have hins := insertUserRow_dup_username db ex rest hu newEmail t
      cases f1 with
      | true => exact ⟨4, by simp [test_multi_table_transaction_rollback,
          select_all_users, hu, execStmt_true, sqlTexts]⟩
      | false => exact ⟨4, by simp [test_multi_table_transaction_rollback,
          select_all_users, hu, execStmt_false, hins, sqlTexts]⟩

/-- C9: for every operation, the sequence of SQL statement texts sent
to the store is position-wise a fixed constant, independent of the
input values: for any two runs (any states, inputs, timestamps and
faults), one run's text sequence is a truncation of the other's, so the
texts issued at corresponding positions are identical; inputs appear
only in the bound-parameter lists of the trace, never in the texts. -/
theorem statement_texts_input_independent
    (db db2 : DB)
    (username email username2 email2 rand1 rand2 rand3 rand4
     newU newU2 newE newE2 : String)
    (user_id user_id2 t t2 : Nat)
    (g1 g2 g3 g4 g5 g6 g7 g8 g9 g10 g11 g12 g13 g14 g15 g16 g17 g18 g19 g20 g21 g22 : Bool) :
    ((∃ k, sqlTexts (insert_user db username email t g1).2.1 =
        (sqlTexts (insert_user db2 username2 email2 t2 g2).2.1).take k) ∨
     (∃ k, sqlTexts (insert_user db2 username2 email2 t2 g2).2.1 =
        (sqlTexts (insert_user db username email t g1).2.1).take k)) ∧
    ((∃ k, sqlTexts (update_user_email db user_id t g3).2.1 =
        (sqlTexts (update_user_email db2 user_id2 t2 g4).2.1).take k) ∨
     (∃ k, sqlTexts (update_user_email db2 user_id2 t2 g4).2.1 =
        (sqlTexts (update_user_email db user_id t g3).2.1).take k)) ∧
    ((∃ k, sqlTexts (delete_oldest_user db g5).2.1 =
        (sqlTexts (delete_oldest_user db2 g6).2.1).take k) ∨
     (∃ k, sqlTexts (delete_oldest_user db2 g6).2.1 =
        (sqlTexts (delete_oldest_user db g5).2.1).take k)) ∧
    ((∃ k, sqlTexts (create_user_with_profile db username email t g7 g8).2.1 =
        (sqlTexts (create_user_with_profile db2 username2 email2 t2 g9 g10).2.1).take k) ∨
     (∃ k, sqlTexts (create_user_with_profile db2 username2 email2 t2 g9 g10).2.1 =
        (sqlTexts (create_user_with_profile db username email t g7 g8).2.1).take k)) ∧
    ((∃ k, sqlTexts (update_user_and_profile db user_id rand1 rand2 t g11 g12).2.1 =
        (sqlTexts (update_user_and_profile db2 user_id2 rand3 rand4 t2 g13 g14).2.1).take k) ∨
     (∃ k, sqlTexts (update_user_and_profile db2 user_id2 rand3 rand4 t2 g13 g14).2.1 =
        (sqlTexts (update_user_and_profile db user_id rand1 rand2 t g11 g12).2.1).take k)) ∧
    ((∃ k, sqlTexts (delete_user_and_profile db user_id g15 g16).2.1 =
        (sqlTexts (delete_user_and_profile db2 user_id2 g17 g18).2.1).take k) ∨
     (∃ k, sqlTexts (delete_user_and_profile db2 user_id2 g17 g18).2.1 =
        (sqlTexts (delete_user_and_profile db user_id g15 g16).2.1).take k)) ∧
    ((∃ k, sqlTexts (test_transaction_rollback db newU t g19).2.1 =
        (sqlTexts (test_transaction_rollback db2 newU2 t2 g20).2.1).take k) ∨
     (∃ k, sqlTexts (test_transaction_rollback db2 newU2 t2 g20).2.1 =
        (sqlTexts (test_transaction_rollback db newU t g19).2.1).take k)) ∧
    ((∃ k, sqlTexts (test_multi_table_transaction_rollback db newE t g21 g22).2.1 =
        (sqlTexts (test_multi_table_transaction_rollback db2 newE2 t2 g1 g2).2.1).take k) ∨
     (∃ k, sqlTexts (test_multi_table_transaction_rollback db2 newE2 t2 g1 g2).2.1 =
        (sqlTexts (test_multi_table_transaction_rollback db newE t g21 g22).2.1).take k)) := by
  refine ⟨?_, ?_, ?_, ?_, ?_, ?_, ?_, ?_⟩
  · exact take_agree _ _ _ (insert_user_texts db username email t g1)
      (insert_user_texts db2 username2 email2 t2 g2)
  · exact take_agree _ _ _ (update_user_email_texts db user_id t g3)
      (update_user_email_texts db2 user_id2 t2 g4)
  · exact take_agree _ _ _ (delete_oldest_user_texts db g5)
      (delete_oldest_user_texts db2 g6)
  · exact take_agree _ _ _ (create_user_with_profile_texts db username email t g7 g8)
      (create_user_with_profile_texts db2 username2 email2 t2 g9 g10)
  · exact take_agree _ _ _ (update_user_and_profile_texts db user_id rand1 rand2 t g11 g12)
      (update_user_and_profile_texts db2 user_id2 rand3 rand4 t2 g13 g14)
  · exact take_agree _ _ _ (delete_user_and_profile_texts db user_id g15 g16)
      (delete_user_and_profile_texts db2 user_id2 g17 g18)
  · exact take_agree _ _ _ (test_transaction_rollback_texts db newU t g19)
      (test_transaction_rollback_texts db2 newU2 t2 g20)
  · exact take_agree _ _ _ (test_multi_table_transaction_rollback_texts db newE t g21 g22)
      (test_multi_table_transaction_rollback_texts db2 newE2 t2 g1 g2)

/-- Updating the email of the rows matching `id` commutes with `find?`:
the first matching row is the original first match with only its
`email` and `updated_at` fields rewritten. -/
theorem find_of_map_email_update (l : List UserRow) (id t : Nat)
    (newEmail : String) (u : UserRow)
    (h : l.find? (fun x => x.id == id) = some u) :
    (l.map (fun x => if x.id == id then
        { x with email := newEmail, updated_at := t } else x)).find?
      (fun x => x.id == id) =
      some { u with email := newEmail, updated_at := t } := by
  induction l with
  | nil => simp at h
  | cons x rest ih =>
      cases hx : x.id == id with
      | true =>
          simp only [List.find?_cons, hx, Option.some.injEq] at h
          subst h
          have hxp : x.id = id := by simpa using hx
          simp [List.map_cons, List.find?_cons, hxp, hx]
      | false =>
          simp only [List.find?_cons, hx] at h
          simp only [List.map_cons, hx, Bool.false_eq_true, if_false, List.find?_cons]
          exact ih h

/-- C10: after a successful `update_user_email` on an existing user,
re-querying that user finds a row whose email is `"updated_"` prepended
to the previous email, with the id and username unchanged (the UPDATE
sets only the email column, plus the schema-maintained `updated_at`). -/
theorem update_user_email_only_email (db : DB) (user_id t : Nat) (f1 : Bool)
    (u : UserRow)
    (hu : select_user_by_id db user_id = some u)
    (hok : (update_user_email db user_id t f1).2.2 = .ok ()) :
    ∃ u2, select_user_by_id (update_user_email db user_id t f1).1 user_id = some u2 ∧
      u2.email = "updated_" ++ u.email ∧
      u2.id = u.id ∧
      u2.username = u.username := by
  cases f1 with
  | true =>
      simp [update_user_email, hu, execStmt_true] at hok
  | false =>
      cases h1 : updateUserEmailRow db ("updated_" ++ u.email) user_id t with
      | error e => simp [update_user_email, hu, execStmt_false, h1] at hok
      | ok tx1 =>
          have hpost : (update_user_email db user_id t false).1 = tx1 := by
            simp [update_user_email, hu, execStmt_false, h1]
          simp only [updateUserEmailRow] at h1
          split at h1
          · exact absurd h1 (by simp)
          · simp only [Except.ok.injEq] at h1
            refine ⟨{ u with email := "updated_" ++ u.email, updated_at := t },
              ?_, rfl, rfl, rfl⟩
            rw [hpost, ← h1]
            exact find_of_map_email_update db.users user_id t ("updated_" ++ u.email) u hu

/-- C10 witness: updating the email of the single stored user. -/
theorem update_user_email_only_email_witness :
    ∃ u2, select_user_by_id (update_user_email dbOneUser 1 7 false).1 1 = some u2 ∧
      u2.email = "updated_" ++ "alice@example.com" ∧
      u2.id = 1 ∧
      u2.username = "alice" :=
  update_user_email_only_email dbOneUser 1 7 false
    { id := 1, username := "alice", email := "alice@example.com",
      created_at := 0, updated_at := 0 } rfl rfl
